import Mathlib

/-!
# Verification of the CHIP-8 interpreter core (`src/main.c`)

A shallow embedding of the interpreter: the `State` structure mirrors
`struct State`, and each C function that the specification's claims touch
(`state_init`, `state_push_to_stack`, `state_pop_from_stack`,
`instruction_clear_video`, `instruction_draw_sprite`,
`instruction_decimal_digits`, `state_step`) is translated into a Lean
function of the same name.  Machine integers are modelled as `Nat` with an
explicit `% 2^w` at every point where a C conversion to `uint8_t`,
`uint16_t` or `uint64_t` truncates; the carry-flag comparisons of the
`0x8` opcode family are computed over `Int`, exactly as C's
integer-promotion rules evaluate them after promoting the `uint8_t`
operands to `int`.
-/

/-- Pointwise update of a function, modelling a store into a C array. -/
def upd (f : Nat → Nat) (a v : Nat) : Nat → Nat :=
  fun b => if b = a then v else f b

def MEMORY_SIZE : Nat := 0x1000
def PROGRAM_START : Nat := 0x200
def STACK_START : Nat := 0x52
def FONT_START : Nat := 0x50

/-- The 80-byte font table `FONTS` (16 glyphs of 5 bytes, digits 0–F). -/
def FONTS : List Nat :=
  [0xF0, 0x90, 0x90, 0x90, 0xF0,
   0x20, 0x60, 0x20, 0x20, 0x70,
   0xF0, 0x10, 0xF0, 0x80, 0xF0,
   0xF0, 0x10, 0xF0, 0x10, 0xF0,
   0x90, 0x90, 0xF0, 0x10, 0x10,
   0xF0, 0x80, 0xF0, 0x10, 0xF0,
   0xF0, 0x80, 0xF0, 0x90, 0xF0,
   0xF0, 0x10, 0x20, 0x40, 0x40,
   0xF0, 0x90, 0xF0, 0x90, 0xF0,
   0xF0, 0x90, 0xF0, 0x10, 0xF0,
   0xF0, 0x90, 0xF0, 0x90, 0x90,
   0xE0, 0x90, 0xE0, 0x90, 0xE0,
   0xF0, 0x80, 0x80, 0x80, 0xF0,
   0xE0, 0x90, 0x90, 0x90, 0xE0,
   0xF0, 0x80, 0xF0, 0x80, 0xF0,
   0xF0, 0x80, 0xF0, 0x80, 0x80]

/-- `struct State`: memory, the sixteen 8-bit registers, the two timers,
the input latch (`keycode`), program counter, stack pointer, index
register, the two flags and the 32-row video buffer (each row one 64-bit
mask, bit 63 = leftmost pixel, matching `convert_video_to_sdl`). -/
structure State where
  memory : Nat → Nat
  regs_v : Nat → Nat
  delay_timer : Nat
  sound_timer : Nat
  keycode : Nat
  pc : Nat
  sp : Nat
  reg_i : Nat
  end_of_program : Bool
  waiting_for_key : Bool
  video_buffer : Nat → Nat

/-- `state_init`: zeroed memory with the font table copied to
`FONT_START`, zero registers and timers, keycode 16 (no key), `pc` at
`PROGRAM_START`, `sp` at `STACK_START`, cleared video, both flags false. -/
def state_init : State :=
  { memory := fun a =>
      if FONT_START ≤ a ∧ a < FONT_START + 80 then FONTS.getD (a - FONT_START) 0 else 0
  , regs_v := fun _ => 0
  , delay_timer := 0
  , sound_timer := 0
  , keycode := 16
  , pc := PROGRAM_START
  , sp := STACK_START
  , reg_i := 0
  , end_of_program := false
  , waiting_for_key := false
  , video_buffer := fun _ => 0 }

/-- `state_push_to_stack`: byte-swap the 16-bit value, store its two bytes
little-endian at `memory[sp]` (net effect: big-endian storage of the
original value), and advance `sp` by 2. -/
def state_push_to_stack (s : State) (value : Nat) : State :=
  let v := value % 65536
  let flipped := ((v <<< 8) ||| (v >>> 8)) % 65536
  { s with
    memory := upd (upd s.memory s.sp (flipped % 256)) (s.sp + 1) (flipped / 256 % 256)
  , sp := (s.sp + 2) % 65536 }

/-- `state_pop_from_stack`: retreat `sp` by 2, read the big-endian 16-bit
value stored there, zero the two bytes, return the value and new state. -/
def state_pop_from_stack (s : State) : Nat × State :=
  let sp2 := (s.sp + 65534) % 65536
  let address := (((s.memory sp2) <<< 8) ||| s.memory (sp2 + 1)) % 65536
  let mem2 := upd (upd s.memory sp2 0) (sp2 + 1) 0
  (address, { s with sp := sp2, memory := mem2 })

/-- `instruction_clear_video`: zero all 32 video rows. -/
def instruction_clear_video (s : State) : State :=
  { s with video_buffer := fun _ => 0 }

/-- The row loop of `instruction_draw_sprite`, by remaining row count.
Each iteration computes `y`, stops when `y ≥ 32`, reads the sprite byte at
`reg_i + row`, places it with `(b << 55) >> start_x` (64-bit arithmetic),
XORs it into the row and raises `VF` when a set pixel is cleared. -/
def draw_rows (start_x start_y iReg : Nat) : Nat → Nat → State → State
  | _, 0, s => s
  | row, remaining + 1, s =>
    let y := (start_y + row) % 256
    if 32 ≤ y then s
    else
      let sprite_mask0 := s.memory (iReg + row) % 256
      let sprite_mask := ((sprite_mask0 <<< 55) % 2 ^ 64) >>> start_x
      let row_data := s.video_buffer y
      let s' :=
        { s with
          video_buffer := upd s.video_buffer y ((Nat.xor row_data sprite_mask) % 2 ^ 64)
        , regs_v := if row_data &&& sprite_mask ≠ 0 then upd s.regs_v 0xF 1 else s.regs_v }
      draw_rows start_x start_y iReg (row + 1) remaining s'

/-- `instruction_draw_sprite`: wrap the start position (`Vx % 64`,
`Vy % 32`), reset `VF`, then run the row loop for `height` rows. -/
def instruction_draw_sprite (s : State) (regx regy height : Nat) : State :=
  let start_x := s.regs_v regx % 64
  let start_y := s.regs_v regy % 32
  draw_rows start_x start_y s.reg_i 0 height { s with regs_v := upd s.regs_v 0xF 0 }

/-- `instruction_decimal_digits`: write hundreds, tens and ones digits of
`value` to `memory[reg_i]`, `memory[reg_i+1]`, `memory[reg_i+2]`. -/
def instruction_decimal_digits (s : State) (value : Nat) : State :=
  let mem1 := upd s.memory s.reg_i (value / 100 % 256)
  let mem2 := upd mem1 (s.reg_i + 1) (value / 10 % 10 % 256)
  let mem3 := upd mem2 (s.reg_i + 2) (value % 10 % 256)
  { s with memory := mem3 }

/-- The `memcpy` of opcode `Fx55`: copy `count` register bytes into memory
starting at `base`. -/
def copy_to_mem (mem regs : Nat → Nat) (base : Nat) : Nat → (Nat → Nat)
  | 0 => mem
  | n + 1 => upd (copy_to_mem mem regs base n) (base + n) (regs n % 256)

/-- The `memcpy` of opcode `Fx65`: copy `count` memory bytes into the
registers. -/
def copy_from_mem (regs mem : Nat → Nat) (base : Nat) : Nat → (Nat → Nat)
  | 0 => regs
  | n + 1 => upd (copy_from_mem regs mem base n) n (mem (base + n) % 256)

/-- Fetch: the big-endian 16-bit opcode at `[pc, pc+1]`. -/
def fetch (s : State) : Nat := ((s.memory s.pc) <<< 8) ||| s.memory (s.pc + 1)

/-- `opcode >> 12`. -/
def nib1 (op : Nat) : Nat := op >>> 12

/-- `(opcode & 0xF00) >> 8`. -/
def nib2 (op : Nat) : Nat := (op &&& 0xF00) >>> 8

/-- `(opcode & 0xF0) >> 4`. -/
def nib3 (op : Nat) : Nat := (op &&& 0xF0) >>> 4

/-- `opcode & 0xF`. -/
def nib4 (op : Nat) : Nat := op &&& 0xF

/-- `opcode & 0xFF`. -/
def immNN (op : Nat) : Nat := op &&& 0xFF

/-- `opcode & 0xFFF`. -/
def immNNN (op : Nat) : Nat := op &&& 0xFFF

/-- The `switch (nibble4)` of opcode family `0x8`.  The carry comparisons
and the subtractions are evaluated over `Int`, exactly as C evaluates them
after promoting the `uint8_t` operands to `int`; each store back into a
register truncates with `% 256` as the C assignment to `uint8_t` does.
Flag writes precede the value writes, and the value writes re-read the
registers, as in the source. -/
def exec_alu (s : State) (x y n4 : Nat) : State :=
  if n4 = 0x0 then { s with regs_v := upd s.regs_v x (s.regs_v y % 256) }
  else if n4 = 0x1 then
    { s with regs_v := upd s.regs_v x ((s.regs_v x ||| s.regs_v y) % 256) }
  else if n4 = 0x2 then
    { s with regs_v := upd s.regs_v x ((s.regs_v x &&& s.regs_v y) % 256) }
  else if n4 = 0x3 then
    { s with regs_v := upd s.regs_v x ((Nat.xor (s.regs_v x) (s.regs_v y)) % 256) }
  else if n4 = 0x4 then
    let flag : Nat :=
      if (s.regs_v x : Int) > (s.regs_v x : Int) + (s.regs_v y : Int) then 1 else 0
    let s1 := { s with regs_v := upd s.regs_v 0xF flag }
    { s1 with regs_v := upd s1.regs_v x ((s1.regs_v x + s1.regs_v y) % 256) }
  else if n4 = 0x5 then
    let flag : Nat :=
      if (s.regs_v x : Int) < (s.regs_v x : Int) - (s.regs_v y : Int) then 1 else 0
    let s1 := { s with regs_v := upd s.regs_v 0xF flag }
    let r2 := upd s1.regs_v x (((s1.regs_v x : Int) - (s1.regs_v y : Int)) % 256).toNat
    { s1 with regs_v := r2 }
  else if n4 = 0x6 then
    let s1 := { s with regs_v := upd s.regs_v 0xF (s.regs_v x &&& 0x1) }
    { s1 with regs_v := upd s1.regs_v x (s1.regs_v x >>> 1 % 256) }
  else if n4 = 0x7 then
    let flag : Nat :=
      if (s.regs_v y : Int) < (s.regs_v y : Int) - (s.regs_v x : Int) then 1 else 0
    let s1 := { s with regs_v := upd s.regs_v 0xF flag }
    let r2 := upd s1.regs_v x (((s1.regs_v y : Int) - (s1.regs_v x : Int)) % 256).toNat
    { s1 with regs_v := r2 }
  else if n4 = 0xE then
    let s1 := { s with regs_v := upd s.regs_v 0xF (s.regs_v x >>> 7 % 256) }
    { s1 with regs_v := upd s1.regs_v x ((s1.regs_v x <<< 1) % 256) }
  else s

/-- The `switch (nn)` of opcode family `0xF`.  Returns the new state and
the `should_step` flag (`false` only for a blocking `Fx0A`). -/
def exec_f (s : State) (x nn : Nat) : State × Bool :=
  if nn = 0x07 then ({ s with regs_v := upd s.regs_v x (s.delay_timer % 256) }, true)
  else if nn = 0x0A then
    if s.keycode ≠ 16 then
      ({ s with regs_v := upd s.regs_v x (s.keycode % 256) }, true)
    else (s, false)
  else if nn = 0x15 then ({ s with delay_timer := s.regs_v x % 256 }, true)
  else if nn = 0x18 then ({ s with sound_timer := s.regs_v x % 256 }, true)
  else if nn = 0x1E then ({ s with reg_i := (s.reg_i + s.regs_v x) % 65536 }, true)
  else if nn = 0x29 then ({ s with reg_i := (FONT_START + s.regs_v x) % 65536 }, true)
  else if nn = 0x33 then (instruction_decimal_digits s (s.regs_v x), true)
  else if nn = 0x55 then
    ({ s with memory := copy_to_mem s.memory s.regs_v s.reg_i (x + 1) }, true)
  else if nn = 0x65 then
    ({ s with regs_v := copy_from_mem s.regs_v s.memory s.reg_i (x + 1) }, true)
  else (s, true)

/-- The `switch (nibble1)` dispatch of `state_step`.  Returns the new
state and the `should_step` flag controlling the automatic `pc += 2`.
There is no case for leading nibble `0xB`: such opcodes fall through to
the final default, which changes nothing and keeps `should_step` true. -/
def exec_opcode (randVal : Nat) (s : State) (op : Nat) : State × Bool :=
  if nib1 op = 0x0 then
    if op = 0x00E0 then (instruction_clear_video s, true)
    else if op = 0x00EE then
      let p := state_pop_from_stack s
      ({ p.2 with pc := p.1 % 65536 }, false)
    else (s, true)
  else if nib1 op = 0x1 then ({ s with pc := immNNN op }, false)
  else if nib1 op = 0x2 then
    ({ state_push_to_stack s ((s.pc + 2) % 65536) with pc := immNNN op }, false)
  else if nib1 op = 0x3 then
    if s.regs_v (nib2 op) = immNN op then ({ s with pc := (s.pc + 4) % 65536 }, false)
    else (s, true)
  else if nib1 op = 0x4 then
    if s.regs_v (nib2 op) ≠ immNN op then ({ s with pc := (s.pc + 4) % 65536 }, false)
    else (s, true)
  else if nib1 op = 0x5 then
    if s.regs_v (nib2 op) = s.regs_v (nib3 op) then
      ({ s with pc := (s.pc + 4) % 65536 }, false)
    else (s, true)
  else if nib1 op = 0x6 then
    ({ s with regs_v := upd s.regs_v (nib2 op) (immNN op) }, true)
  else if nib1 op = 0x7 then
    ({ s with regs_v := upd s.regs_v (nib2 op) ((s.regs_v (nib2 op) + immNN op) % 256) },
     true)
  else if nib1 op = 0x8 then (exec_alu s (nib2 op) (nib3 op) (nib4 op), true)
  else if nib1 op = 0x9 then
    if s.regs_v (nib2 op) ≠ s.regs_v (nib3 op) then
      ({ s with pc := (s.pc + 4) % 65536 }, false)
    else (s, true)
  else if nib1 op = 0xA then ({ s with reg_i := immNNN op }, true)
  else if nib1 op = 0xC then
    ({ s with regs_v := upd s.regs_v (nib2 op) ((randVal &&& immNN op) % 256) }, true)
  else if nib1 op = 0xD then
    (instruction_draw_sprite s (nib2 op) (nib3 op) (nib4 op), true)
  else if nib1 op = 0xE then
    if immNN op = 0x9E then
      if s.keycode = s.regs_v (nib2 op) then ({ s with pc := (s.pc + 4) % 65536 }, false)
      else (s, true)
    else if immNN op = 0xA1 then
      if s.keycode ≠ s.regs_v (nib2 op) then ({ s with pc := (s.pc + 4) % 65536 }, false)
      else (s, true)
    else (s, true)
  else if nib1 op = 0xF then exec_f s (nib2 op) (immNN op)
  else (s, true)

/-- `state_step`.  When `pc >= MEMORY_SIZE - 1` the C function evaluates
the no-effect expression `state->end_of_program;` and returns — the state,
including the `end_of_program` flag, is untouched.  Otherwise it fetches
and dispatches the opcode, then applies `pc += 2` when `should_step` is
still set.  `randVal` stands for the value the C code obtains from
`rand()` in the `Cxnn` branch. -/
def state_step (randVal : Nat) (s : State) : State :=
  if MEMORY_SIZE - 1 ≤ s.pc then s
  else
    let p := exec_opcode randVal s (fetch s)
    if p.2 then { p.1 with pc := (p.1.pc + 2) % 65536 } else p.1

/-! ## Concrete states used to instantiate the claims -/

/-- A freshly initialised machine with a two-byte instruction loaded at
`PROGRAM_START`, the address the program counter starts at. -/
def rom2 (s : State) (b0 b1 : Nat) : State :=
  { s with memory := upd (upd s.memory 0x200 b0) 0x201 b1 }

/-- Opcode `B123` loaded at the initial program counter. -/
def stateB : State := rom2 state_init 0xB1 0x23

/-- Opcode `8014` (`V0 := V0 + V1` with carry flag) with `V0 = 200`,
`V1 = 100`: the addition overflows 8 bits. -/
def state8xy4 : State :=
  { rom2 state_init 0x80 0x14 with regs_v := upd (upd state_init.regs_v 0 200) 1 100 }

/-- Opcode `8015` (`V0 := V0 - V1` with borrow flag) with `V0 = 5`,
`V1 = 3`: no borrow occurs. -/
def state8xy5 : State :=
  { rom2 state_init 0x80 0x15 with regs_v := upd (upd state_init.regs_v 0 5) 1 3 }

/-- Opcode `2300` (call 0x300) loaded at the initial program counter. -/
def stateCall : State := rom2 state_init 0x23 0x00

/-- Opcode `F129` (font address for digit `V1`) with `V1 = 1`. -/
def stateF129 : State :=
  { rom2 state_init 0xF1 0x29 with regs_v := upd state_init.regs_v 1 1 }

/-- Opcode `F029` (font address for digit `V0`) with `V0 = 7`. -/
def stateF029 : State :=
  { rom2 state_init 0xF0 0x29 with regs_v := upd state_init.regs_v 0 7 }

/-- Opcode `D011` (draw a 1-row sprite at `(V0, V1)`) with `V0 = 60`,
`V1 = 0`, the index register pointing at a `0xFF` sprite byte. -/
def stateDraw : State :=
  { state_init with
      memory := upd (upd (upd state_init.memory 0x200 0xD0) 0x201 0x11) 0x300 0xFF
    , regs_v := upd state_init.regs_v 0 60
    , reg_i := 0x300 }

/-- Opcode `F30A` (wait for key into `V3`) with key 5 pressed. -/
def stateF30A : State := { rom2 state_init 0xF3 0x0A with keycode := 5 }

/-- Opcode `F033` (decimal digits of `V0`) with `V0 = 123` and the index
register at 0x300. -/
def stateF033 : State :=
  { rom2 state_init 0xF0 0x33 with regs_v := upd state_init.regs_v 0 123, reg_i := 0x300 }

/-! ## Bit-level helper lemmas -/

theorem lorModTwoPow (a b n : Nat) : (a ||| b) % 2 ^ n = a % 2 ^ n ||| b % 2 ^ n := by
  apply Nat.eq_of_testBit_eq
  intro i
  simp only [Nat.testBit_mod_two_pow, Nat.testBit_or]
  by_cases h : i < n <;> simp [h]

theorem lorShiftRight (a b n : Nat) : (a ||| b) >>> n = a >>> n ||| b >>> n := by
  apply Nat.eq_of_testBit_eq
  intro i
  simp [Nat.testBit_shiftRight]

theorem landShiftRight (a b n : Nat) : (a &&& b) >>> n = a >>> n &&& b >>> n := by
  apply Nat.eq_of_testBit_eq
  intro i
  simp [Nat.testBit_shiftRight]

/-- Packing a high byte and a low byte with shift-or is plain arithmetic. -/
theorem pack_hi_lo (hi lo : Nat) (hlo : lo < 256) : (hi <<< 8) ||| lo = hi * 256 + lo := by
  have hmod : ((hi <<< 8) ||| lo) % 2 ^ 8 = lo := by
    rw [lorModTwoPow]
    have h1 : (hi <<< 8) % 2 ^ 8 = 0 := by
      rw [Nat.shiftLeft_eq]
      simp [Nat.mul_mod_left]
    rw [h1, Nat.mod_eq_of_lt (by norm_num; omega)]
    simp
  have hdiv : ((hi <<< 8) ||| lo) / 2 ^ 8 = hi := by
    have h2 := lorShiftRight (hi <<< 8) lo 8
    rw [Nat.shiftRight_eq_div_pow ((hi <<< 8) ||| lo)] at h2
    rw [h2, Nat.shiftLeft_eq, Nat.shiftRight_eq_div_pow, Nat.shiftRight_eq_div_pow]
    rw [Nat.mul_div_cancel _ (by norm_num : 0 < 2 ^ 8)]
    rw [Nat.div_eq_of_lt (by norm_num; omega)]
    simp
  have e : (2 : Nat) ^ 8 = 256 := by norm_num
  rw [e] at hmod hdiv
  omega

theorem land_mod_two_pow (a : Nat) : a &&& 15 = a % 16 := by
  have h : (15 : Nat) = 2 ^ 4 - 1 := by norm_num
  rw [h, Nat.and_pow_two_sub_one_eq_mod]

theorem nib1_decomp (hi lo : Nat) (_hhi : hi < 256) (hlo : lo < 256) :
    nib1 (hi * 256 + lo) = hi / 16 := by
  unfold nib1
  rw [Nat.shiftRight_eq_div_pow]
  have e : (2 : Nat) ^ 12 = 4096 := by norm_num
  rw [e]
  omega

theorem nib2_decomp (hi lo : Nat) (_hhi : hi < 256) (hlo : lo < 256) :
    nib2 (hi * 256 + lo) = hi % 16 := by
  unfold nib2
  rw [landShiftRight]
  have h1 : (0xF00 : Nat) >>> 8 = 15 := by decide
  rw [h1]
  rw [Nat.shiftRight_eq_div_pow]
  have h2 : (hi * 256 + lo) / 2 ^ 8 = hi := by
    have e : (2 : Nat) ^ 8 = 256 := by norm_num
    rw [e]
    omega
  rw [h2, land_mod_two_pow]

theorem nib3_decomp (hi lo : Nat) (_hhi : hi < 256) (hlo : lo < 256) :
    nib3 (hi * 256 + lo) = lo / 16 := by
  unfold nib3
  rw [landShiftRight]
  have h1 : (0xF0 : Nat) >>> 4 = 15 := by decide
  rw [h1]
  rw [Nat.shiftRight_eq_div_pow]
  rw [land_mod_two_pow]
  have e : (2 : Nat) ^ 4 = 16 := by norm_num
  rw [e]
  omega

theorem nib4_decomp (hi lo : Nat) (_hhi : hi < 256) (_hlo : lo < 256) :
    nib4 (hi * 256 + lo) = lo % 16 := by
  unfold nib4
  rw [show (0xF : Nat) = 15 from rfl, land_mod_two_pow]
  omega

theorem immNN_decomp (hi lo : Nat) (_hhi : hi < 256) (hlo : lo < 256) :
    immNN (hi * 256 + lo) = lo := by
  unfold immNN
  have h : (0xFF : Nat) = 2 ^ 8 - 1 := by norm_num
  rw [h, Nat.and_pow_two_sub_one_eq_mod]
  have e : (2 : Nat) ^ 8 = 256 := by norm_num
  rw [e]
  omega

theorem immNNN_decomp (hi lo : Nat) (_hhi : hi < 256) (hlo : lo < 256) :
    immNNN (hi * 256 + lo) = hi % 16 * 256 + lo := by
  unfold immNNN
  have h : (0xFFF : Nat) = 2 ^ 12 - 1 := by norm_num
  rw [h, Nat.and_pow_two_sub_one_eq_mod]
  have e : (2 : Nat) ^ 12 = 4096 := by norm_num
  rw [e]
  omega

theorem fetch_decomp (s : State) (hi lo : Nat) (hlo : lo < 256)
    (h1 : s.memory s.pc = hi) (h2 : s.memory (s.pc + 1) = lo) :
    fetch s = hi * 256 + lo := by
  unfold fetch
  rw [h1, h2, pack_hi_lo hi lo hlo]

/-- When the program counter is in range, `state_step` is fetch, dispatch
and the conditional automatic advance. -/
theorem state_step_eq (r : Nat) (s : State) (hpc : s.pc < 4095) :
    state_step r s =
      (if (exec_opcode r s (fetch s)).2
       then { (exec_opcode r s (fetch s)).1 with
                pc := ((exec_opcode r s (fetch s)).1.pc + 2) % 65536 }
       else (exec_opcode r s (fetch s)).1) := by
  unfold state_step MEMORY_SIZE
  rw [if_neg (by omega)]

/-! ## The claims -/

/-- Claim C1: the claimed carry semantics of opcode `8xy4` fail in the
code.  The C flag expression `Vx > Vx + Vy` is evaluated after integer
promotion, so the addition never wraps and the comparison is always
false: executing `8014` leaves `VF = 0` for every pair of 8-bit values in
`V0`, `V1` — including overflowing pairs, where the claim requires
`VF = 1`.  The sum stored into `V0` is `(V0 + V1) % 256` as claimed. -/
theorem opcode8xy4_carry_always_zero (r : Nat) (s : State) (a b : Nat)
    (_ha : a < 256) (_hb : b < 256) (hpc : s.pc < 4095)
    (h1 : s.memory s.pc = 0x80) (h2 : s.memory (s.pc + 1) = 0x14)
    (hva : s.regs_v 0 = a) (hvb : s.regs_v 1 = b) :
    (state_step r s).regs_v 0xF = 0 ∧ (state_step r s).regs_v 0 = (a + b) % 256 := by
  have hfetch : fetch s = 0x8014 := fetch_decomp s 0x80 0x14 (by omega) h1 h2
  have e1 : nib1 0x8014 = 8 := by decide
  have e2 : nib2 0x8014 = 0 := by decide
  have e3 : nib3 0x8014 = 1 := by decide
  have e4 : nib4 0x8014 = 4 := by decide
  rw [state_step_eq r s hpc, hfetch]
  unfold exec_opcode
  rw [e1, e2, e3, e4]
  norm_num
  unfold exec_alu
  norm_num
  have hflag : (if ((s.regs_v 1 : Int)) < 0 then (1 : Nat) else 0) = 0 := if_neg (by omega)
  rw [hflag]
  simp [upd, hva, hvb]

/-- Claim C1, witness: at `V0 = 200`, `V1 = 100` (sum 300 ≥ 256, so the
claim requires `VF = 1`) the code still leaves `VF = 0`. -/
theorem opcode8xy4_carry_witness :
    (state_step 0 state8xy4).regs_v 0xF = 0 ∧
      (state_step 0 state8xy4).regs_v 0 = (200 + 100) % 256 :=
  opcode8xy4_carry_always_zero 0 state8xy4 200 100 (by decide) (by decide) (by decide)
    (by decide) (by decide) (by decide) (by decide)

/-- Claim C2: the claimed no-borrow semantics of opcode `8xy5` fail in the
code.  The C flag expression `Vx < Vx - Vy` is evaluated after integer
promotion, so the subtraction never wraps and the comparison is always
false: executing `8015` leaves `VF = 0` for every pair of 8-bit values in
`V0`, `V1` — including pairs with `V0 ≥ V1`, where the claim requires
`VF = 1`.  The difference stored into `V0` is `(V0 - V1) mod 256` as
claimed. -/
theorem opcode8xy5_borrow_always_zero (r : Nat) (s : State) (a b : Nat)
    (_ha : a < 256) (_hb : b < 256) (hpc : s.pc < 4095)
    (h1 : s.memory s.pc = 0x80) (h2 : s.memory (s.pc + 1) = 0x15)
    (hva : s.regs_v 0 = a) (hvb : s.regs_v 1 = b) :
    (state_step r s).regs_v 0xF = 0 ∧
      (state_step r s).regs_v 0 = (((a : Int) - (b : Int)) % 256).toNat := by
  have hfetch : fetch s = 0x8015 := fetch_decomp s 0x80 0x15 (by omega) h1 h2
  have e1 : nib1 0x8015 = 8 := by decide
  have e2 : nib2 0x8015 = 0 := by decide
  have e3 : nib3 0x8015 = 1 := by decide
  have e4 : nib4 0x8015 = 5 := by decide
  rw [state_step_eq r s hpc, hfetch]
  unfold exec_opcode
  rw [e1, e2, e3, e4]
  norm_num
  unfold exec_alu
  norm_num
  have hflag :
      (if (s.regs_v 0 : Int) < (s.regs_v 0 : Int) - (s.regs_v 1 : Int) then (1 : Nat) else 0) = 0 :=
    if_neg (by omega)
  rw [hflag]
  simp [upd, hva, hvb]

/-- Claim C2, witness: at `V0 = 5`, `V1 = 3` (no borrow, so the claim
requires `VF = 1`) the code still leaves `VF = 0`. -/
theorem opcode8xy5_borrow_witness :
    (state_step 0 state8xy5).regs_v 0xF = 0 ∧
      (state_step 0 state8xy5).regs_v 0 = (((5 : Int) - (3 : Int)) % 256).toNat :=
  opcode8xy5_borrow_always_zero 0 state8xy5 5 3 (by decide) (by decide) (by decide)
    (by decide) (by decide) (by decide) (by decide)

/-- Claim C3: the font region is not preserved by `step`.  `STACK_START`
(0x52) lies inside the 80-byte font table at `FONT_START` (0x50, region
0x50–0x9F), so the first call instruction `2nnn` pushes the return address
0x202 over font bytes 0x52–0x53: byte 0x52 is initialised to glyph 0's
third byte 0x90 and after one step of `2300` holds 0x02. -/
theorem call_overwrites_font_byte :
    stateCall.memory 0x52 = FONTS.getD 2 0 ∧ FONTS.getD 2 0 = 0x90 ∧
      (state_step 0 stateCall).memory 0x52 = 0x02 := by decide

/-- Claim C4, counterexample: with `V1 = 1`, opcode `F129` sets
`I = FONT_START + 1`, but the byte there (0x90, inside glyph 0) differs
from the first byte of digit 1's glyph `FONTS[5] = 0x20`; so the 5 bytes
at `memory[I..I+5)` are not the glyph bitmap of digit `V1`. -/
theorem fx29_glyph_mismatch :
    (state_step 0 stateF129).reg_i = FONT_START + 1 ∧
      (state_step 0 stateF129).memory (FONT_START + 1) ≠ FONTS.getD (5 * 1) 0 := by decide

/-- Claim C4, amended: executing `Fx29` sets the index register to
`FONT_START + Vx` — without the factor 5 that glyph selection would
need, since digit `d`'s glyph starts at `FONT_START + 5*d`. -/
theorem fx29_sets_index_plus_vx (r : Nat) (s : State) (v : Nat) (hv : v < 16)
    (hpc : s.pc < 4095) (h1 : s.memory s.pc = 0xF0) (h2 : s.memory (s.pc + 1) = 0x29)
    (hva : s.regs_v 0 = v) :
    (state_step r s).reg_i = FONT_START + v := by
  have hfetch : fetch s = 0xF029 := fetch_decomp s 0xF0 0x29 (by omega) h1 h2
  have e1 : nib1 0xF029 = 15 := by decide
  have e2 : nib2 0xF029 = 0 := by decide
  have enn : immNN 0xF029 = 0x29 := by decide
  rw [state_step_eq r s hpc, hfetch]
  unfold exec_opcode
  rw [e1, e2, enn]
  norm_num
  unfold exec_f
  norm_num [FONT_START, hva]
  omega

/-- Claim C4, witness for the amended statement at `V0 = 7`. -/
theorem fx29_sets_index_witness :
    (state_step 0 stateF029).reg_i = FONT_START + 7 :=
  fx29_sets_index_plus_vx 0 stateF029 7 (by decide) (by decide) (by decide) (by decide)
    (by decide)

/-- Claim C5: the sprite row is placed one column right of the claimed
position.  The code computes `(b << 55) >> start_x` instead of
`(b << 56) >> start_x`, so a `0xFF` one-row sprite drawn at starting
column 60 yields row value 7 — three pixels at columns 61, 62, 63 (bit 63
is column 0) — whereas the claim requires its top four bits at columns
60–63, i.e. row value 15. -/
theorem draw_sprite_row_off_by_one :
    (state_step 0 stateDraw).video_buffer 0 = 7 := by decide

/-- Claim C6: when `pc ≥ MEMORY_SIZE - 1`, `step` changes nothing at all —
it is the claimed no-op, but the whole state, the `end_of_program` flag
included, is returned untouched, because the C branch consists of the
no-effect expression statement `state->end_of_program;`.  Termination is
therefore never signalled to the caller, contradicting the second half of
the claim. -/
theorem step_noop_at_end_of_memory (r : Nat) (s : State)
    (h : MEMORY_SIZE - 1 ≤ s.pc) : state_step r s = s := by
  unfold state_step
  rw [if_pos h]

/-- Claim C6, witness: a state parked at `pc = 0xFFF` with the flag still
false is returned unchanged. -/
theorem step_noop_witness :
    MEMORY_SIZE - 1 ≤ (4095 : Nat) ∧
      state_step 0 { state_init with pc := 4095 } = { state_init with pc := 4095 } :=
  ⟨by decide, step_noop_at_end_of_memory 0 { state_init with pc := 4095 } (by decide)⟩

/-- Claim C7: `Fx0A` blocks on the no-key sentinel and latches a pressed
key.  With the input latch at 16 the step returns the state unchanged
(so every repeated step re-executes the same instruction); with a key
`k < 16` latched, the step stores `k` into `Vx` and advances `pc` by
exactly 2. -/
theorem fx0a_blocks_then_latches (r : Nat) (s : State) (x : Nat) (hx : x < 16)
    (hpc : s.pc < 4095) (h1 : s.memory s.pc = 0xF0 + x)
    (h2 : s.memory (s.pc + 1) = 0x0A) :
    (s.keycode = 16 → state_step r s = s) ∧
    (s.keycode < 16 →
      (state_step r s).regs_v x = s.keycode ∧ (state_step r s).pc = s.pc + 2) := by
  have hfetch : fetch s = (0xF0 + x) * 256 + 0x0A :=
    fetch_decomp s (0xF0 + x) 0x0A (by omega) h1 h2
  have e1 : nib1 ((0xF0 + x) * 256 + 0x0A) = 15 := by
    rw [nib1_decomp _ _ (by omega) (by omega)]
    omega
  have e2 : nib2 ((0xF0 + x) * 256 + 0x0A) = x := by
    rw [nib2_decomp _ _ (by omega) (by omega)]
    omega
  have enn : immNN ((0xF0 + x) * 256 + 0x0A) = 0x0A := by
    rw [immNN_decomp _ _ (by omega) (by omega)]
  rw [state_step_eq r s hpc, hfetch]
  unfold exec_opcode
  rw [e1, e2, enn]
  norm_num
  unfold exec_f
  norm_num
  constructor
  · intro hk
    simp [hk]
  · intro hk
    have hk16 : s.keycode ≠ 16 := by omega
    have hkm : s.keycode % 256 = s.keycode := Nat.mod_eq_of_lt (by omega)
    simp [hk16, upd, hkm]
    omega

/-- Claim C7, witness: opcode `F30A` with key 5 latched stores 5 into `V3`
and advances `pc` by 2. -/
theorem fx0a_witness :
    (stateF30A.keycode = 16 → state_step 0 stateF30A = stateF30A) ∧
    (stateF30A.keycode < 16 →
      (state_step 0 stateF30A).regs_v 3 = stateF30A.keycode ∧
      (state_step 0 stateF30A).pc = stateF30A.pc + 2) :=
  fx0a_blocks_then_latches 0 stateF30A 3 (by decide) (by decide) (by decide) (by decide)

/-- Claim C8: pushing a 16-bit address and immediately popping returns the
same address, and the stack pointer returns to its pre-push value, for
every address and every state whose stack pointer addresses a valid
in-memory slot. -/
theorem push_pop_roundtrip (s : State) (A : Nat) (hA : A < 65536) (hsp : s.sp + 1 < 4096) :
    (state_pop_from_stack (state_push_to_stack s A)).1 = A ∧
    (state_pop_from_stack (state_push_to_stack s A)).2.sp = s.sp := by
  have hA65536 : A % 65536 = A := Nat.mod_eq_of_lt hA
  have hf : ((A <<< 8) ||| (A >>> 8)) % 65536 = A % 256 * 256 + A / 256 := by
    rw [Nat.shiftRight_eq_div_pow]
    rw [pack_hi_lo A (A / 2 ^ 8) (by norm_num; omega)]
    have e : (2 : Nat) ^ 8 = 256 := by norm_num
    rw [e]
    omega
  simp only [state_push_to_stack, state_pop_from_stack, hA65536, hf]
  have hsp2 : ((s.sp + 2) % 65536 + 65534) % 65536 = s.sp := by omega
  have hb0 : (A % 256 * 256 + A / 256) % 256 = A / 256 := by omega
  have hb1 : (A % 256 * 256 + A / 256) / 256 % 256 = A % 256 := by omega
  rw [hsp2, hb0, hb1]
  have hr1 : upd (upd s.memory s.sp (A / 256)) (s.sp + 1) (A % 256) s.sp = A / 256 := by
    simp [upd]
  have hr2 :
      upd (upd s.memory s.sp (A / 256)) (s.sp + 1) (A % 256) (s.sp + 1) = A % 256 := by
    simp [upd]
  rw [hr1, hr2]
  rw [pack_hi_lo (A / 256) (A % 256) (by omega)]
  constructor
  · omega
  · rfl

/-- Claim C8, witness: address 0x202 round-trips through the freshly
initialised state's stack, with `sp` restored. -/
theorem push_pop_roundtrip_witness :
    (state_pop_from_stack (state_push_to_stack state_init 0x202)).1 = 0x202 ∧
    (state_pop_from_stack (state_push_to_stack state_init 0x202)).2.sp = state_init.sp :=
  push_pop_roundtrip state_init 0x202 (by decide) (by decide)

/-- Claim C9: executing `Fx33` writes exactly the three decimal digits of
the 8-bit value `v = V0` — `memory[I] = v/100`, `memory[I+1] = v/10 % 10`,
`memory[I+2] = v % 10` — these recombine by place value to `v`, and every
other memory address is unchanged. -/
theorem fx33_writes_decimal_digits (r : Nat) (s : State) (v a : Nat) (hv : v < 256)
    (hpc : s.pc < 4095) (h1 : s.memory s.pc = 0xF0) (h2 : s.memory (s.pc + 1) = 0x33)
    (hva : s.regs_v 0 = v)
    (ha1 : a ≠ s.reg_i) (ha2 : a ≠ s.reg_i + 1) (ha3 : a ≠ s.reg_i + 2) :
    (state_step r s).memory s.reg_i = v / 100 ∧
    (state_step r s).memory (s.reg_i + 1) = v / 10 % 10 ∧
    (state_step r s).memory (s.reg_i + 2) = v % 10 ∧
    100 * (v / 100) + 10 * (v / 10 % 10) + v % 10 = v ∧
    (state_step r s).memory a = s.memory a := by
  have hfetch : fetch s = 0xF033 := fetch_decomp s 0xF0 0x33 (by omega) h1 h2
  have e1 : nib1 0xF033 = 15 := by decide
  have e2 : nib2 0xF033 = 0 := by decide
  have enn : immNN 0xF033 = 0x33 := by decide
  rw [state_step_eq r s hpc, hfetch]
  unfold exec_opcode
  rw [e1, e2, enn]
  norm_num
  unfold exec_f
  norm_num
  unfold instruction_decimal_digits
  simp [upd, hva, ha1, ha2, ha3]
  omega

/-- Claim C9, witness at `v = 123` with the index register at 0x300 and
frame address 0x400. -/
theorem fx33_witness :
    (state_step 0 stateF033).memory stateF033.reg_i = 123 / 100 ∧
    (state_step 0 stateF033).memory (stateF033.reg_i + 1) = 123 / 10 % 10 ∧
    (state_step 0 stateF033).memory (stateF033.reg_i + 2) = 123 % 10 ∧
    100 * (123 / 100) + 10 * (123 / 10 % 10) + 123 % 10 = 123 ∧
    (state_step 0 stateF033).memory 0x400 = stateF033.memory 0x400 :=
  fx33_writes_decimal_digits 0 stateF033 123 0x400 (by decide) (by decide) (by decide)
    (by decide) (by decide) (by decide) (by decide) (by decide)

/-- Claim C10: any opcode with leading nibble `0xB` falls through the
dispatch (the interpreter has no `0xB` case) to the default branch, which
leaves every component of the state unchanged and advances the program
counter by exactly 2. -/
theorem opcodeB_advances_pc_only (r : Nat) (s : State) (hi lo : Nat)
    (hhi1 : 0xB0 ≤ hi) (hhi2 : hi < 0xC0) (hlo : lo < 256) (hpc : s.pc < 4095)
    (h1 : s.memory s.pc = hi) (h2 : s.memory (s.pc + 1) = lo) :
    state_step r s = { s with pc := s.pc + 2 } := by
  have hfetch : fetch s = hi * 256 + lo := fetch_decomp s hi lo hlo h1 h2
  have hn1 : nib1 (hi * 256 + lo) = 11 := by
    rw [nib1_decomp hi lo (by omega) hlo]
    omega
  rw [state_step_eq r s hpc, hfetch]
  unfold exec_opcode
  rw [hn1]
  norm_num
  omega

/-- Claim C10, witness: opcode `B123` at the initial program counter
advances `pc` by 2 and changes nothing else. -/
theorem opcodeB_witness :
    state_step 0 stateB = { stateB with pc := stateB.pc + 2 } :=
  opcodeB_advances_pc_only 0 stateB 0xB1 0x23 (by decide) (by decide) (by decide)
    (by decide) (by decide) (by decide)
